import Mathlib

/-
Verification of the build command layer
(src/common_modules/vsts-cli-build-common/vsts/cli/build/common/custom.py).

The four public operations (build_queue, build_show, build_definition_list,
build_definition_show) and the two resolution sub-algorithms
(get_definition_id_from_name, _resolve_repository_as_id) are embedded as
Lean functions.  External collaborators (the connection resolvers, the
build and git service clients, the git-ref normalizer, the uuid check and
the browser launcher) are a record of functions, `Env`; fallible ones
return `Except Err`.  Each operation also returns the list of remote
service calls it issued, in order, so that properties about which calls
are made (and with which request objects) can be stated.  The Python
try/except wrapper that funnels every exception into
handle_command_exception is embedded by `wrap`: an exception becomes a
`none` return value together with the exception that was handed to the
handler.
-/

namespace VstsBuild

/-- Project reference: the module only reads the project name. -/
structure TeamProjectReference where
  name : String
deriving DecidableEq

/-- DefinitionReference as constructed by build_queue: only id is set. -/
structure DefinitionReference where
  id : Int
deriving DecidableEq

/-- Build request constructed locally before submission
(Build(definition=...) plus an optional source_branch assignment). -/
structure Build where
  definition : Option DefinitionReference := none
  source_branch : Option String := none
deriving DecidableEq

/-- A build record returned by the service: the module reads id and
project.name only. -/
structure BuildRecord where
  id : Int
  project : TeamProjectReference
deriving DecidableEq

/-- A build definition reference returned by the service. -/
structure BuildDefinitionReference where
  id : Int
  name : String
  project : TeamProjectReference
deriving DecidableEq

/-- A git repository record returned by the service. -/
structure GitRepository where
  id : String
  name : String
deriving DecidableEq

/-- Python exceptions visible at this layer: ValueError raised by this
module, and opaque exceptions of external collaborators. -/
inductive Err where
  | valueError (msg : String)
  | external (msg : String)
deriving DecidableEq

/-- One remote service call, with the arguments the module passes. -/
inductive RemoteCall where
  | queueBuild (build : Build) (project : String)
  | getBuild (buildId : Int) (project : String)
  | getDefinitions (project : String) (name : Option String)
      (repositoryId : Option String) (repositoryType : Option String)
      (top : Option Int) (queryOrder : Option String)
  | getDefinition (definitionId : Int) (project : String)
  | getRepositories (project : String)
deriving DecidableEq

/-- The external collaborators of the module.  Fallible collaborators
return `Except Err`; resolve_git_ref_heads and is_uuid are pure in the
source and are modelled as total functions. -/
structure Env where
  resolve_instance_and_project :
    Option String → Option String → Option String → Except Err (String × String)
  resolve_instance_project_and_repo :
    Option String → Option String → Option String → Option String →
      Except Err (String × String × Option String)
  get_definitions :
    String → Option String → Option String → Option String → Option Int →
      Option String → Except Err (List BuildDefinitionReference)
  queue_build : Build → String → Except Err BuildRecord
  get_build : Int → String → Except Err BuildRecord
  get_definition : Int → String → Except Err BuildDefinitionReference
  get_repositories : String → Except Err (List GitRepository)
  resolve_git_ref_heads : String → String
  is_uuid : String → Bool
  open_new : String → Except Err Unit

/-- A single quote character, used in the repository-not-found message. -/
def squote : String := String.singleton (Char.ofNat 39)

/-- Message of the ValueError raised when neither --id nor --name is
supplied (identical in build_queue and build_definition_show). -/
def idOrNameMsg : String :=
  "Either the --id argument or the --name argument must be supplied for this command."

/-- Message of the ValueError raised by get_definition_id_from_name on
zero matches. -/
def noMatchMsg (name project : String) : String :=
  "There were no build definitions matching name \"" ++ name ++
    "\" in project \"" ++ project ++ "\"."

/-- Message of the ValueError raised by get_definition_id_from_name on
more than one match. -/
def multiMatchMsg (name project : String) : String :=
  "Multiple definitions were found matching name \"" ++ name ++
    "\" in project \"" ++ project ++ "\".  Try supplying the definition ID."

/-- Message of the ValueError raised by build_definition_list when the
repository filter cannot be resolved. -/
def repoNotFoundMsg (repository project : String) : String :=
  "Could not find a repository with name, " ++ squote ++ repository ++ squote ++
    ", in project, " ++ squote ++ project ++ squote ++ "."

/-- get_definition_id_from_name: query definitions by name, return the id
on exactly one match, raise ValueError on zero or several matches; on
several matches a uuid-shaped project token is replaced by the first
match's project name in the message. -/
def get_definition_id_from_name (env : Env) (name : String) (project : String) :
    Except Err Int × List RemoteCall :=
  let call := RemoteCall.getDefinitions project (some name) none none none none
  match env.get_definitions project (some name) none none none none with
  | Except.error e => (Except.error e, [call])
  | Except.ok definition_references =>
    match definition_references with
    | [r] => (Except.ok r.id, [call])
    | r :: _ :: _ =>
      let project := if env.is_uuid project then r.project.name else project
      (Except.error (Err.valueError (multiMatchMsg name project)), [call])
    | [] => (Except.error (Err.valueError (noMatchMsg name project)), [call])

/-- Python str.lower, character by character. -/
def lowerStr (s : String) : String := String.mk (s.data.map Char.toLower)

/-- The loop of _resolve_repository_as_id: first repository whose name
matches case-insensitively, or none (the function falls off its end). -/
def findRepositoryId : List GitRepository → String → Option String
  | [], _ => none
  | r :: rest, repository =>
    if lowerStr r.name == lowerStr repository then some r.id
    else findRepositoryId rest repository

/-- _resolve_repository_as_id: a uuid-shaped token is returned unchanged
with no remote call; otherwise the project's repositories are listed and
matched by name case-insensitively. -/
def _resolve_repository_as_id (env : Env) (repository : String) (project : String) :
    Except Err (Option String) × List RemoteCall :=
  if env.is_uuid repository then (Except.ok (some repository), [])
  else
    match env.get_repositories project with
    | Except.error e => (Except.error e, [RemoteCall.getRepositories project])
    | Except.ok repositories =>
      (Except.ok (findRepositoryId repositories repository),
        [RemoteCall.getRepositories project])

/-- Upper-case hexadecimal digit. -/
def hexDigit (n : Nat) : Char :=
  if n < 10 then Char.ofNat (48 + n) else Char.ofNat (55 + n)

/-- Percent-escape of one byte. -/
def byteHex (b : Nat) : String :=
  String.mk ['%', hexDigit (b / 16), hexDigit (b % 16)]

/-- Bytes left unescaped: unreserved characters and the slash. -/
def isSafeByte (b : Nat) : Bool :=
  (65 ≤ b && b ≤ 90) || (97 ≤ b && b ≤ 122) || (48 ≤ b && b ≤ 57) ||
    b == 95 || b == 46 || b == 45 || b == 126 || b == 47

/-- Quote one byte. -/
def quoteByte (b : Nat) : String :=
  if isSafeByte b then String.singleton (Char.ofNat b) else byteHex b

/-- UTF-8 encoding of one character, as byte values. -/
def utf8Bytes (c : Char) : List Nat :=
  let n := c.toNat
  if n < 128 then [n]
  else if n < 2048 then [192 + n / 64, 128 + n % 64]
  else if n < 65536 then [224 + n / 4096, 128 + (n / 64) % 64, 128 + n % 64]
  else [240 + n / 262144, 128 + (n / 4096) % 64, 128 + (n / 64) % 64, 128 + n % 64]

/-- Modelled from the spec: the external URL-safe string encoder
(vsts.cli.common.uri.uri_quote is not under src/).  Percent-encodes every
UTF-8 byte outside the unreserved set, the slash staying safe. -/
def uri_quote (s : String) : String :=
  String.join (s.data.map (fun c => String.join ((utf8Bytes c).map quoteByte)))

/-- Python team_instance.rstrip with a slash: drop all trailing slashes. -/
def rstripSlash (s : String) : String :=
  String.mk ((s.data.reverse.dropWhile (fun c => c == '/')).reverse)

/-- The URL _open_build composes. -/
def buildWebUrl (team_instance : String) (build : BuildRecord) : String :=
  rstripSlash team_instance ++ "/" ++ uri_quote build.project.name ++
    "/_build/index?buildid=" ++ uri_quote (toString build.id)

/-- The URL _open_definition composes. -/
def definitionWebUrl (team_instance : String) (definition : BuildDefinitionReference) :
    String :=
  rstripSlash team_instance ++ "/" ++ uri_quote definition.project.name ++
    "/_build/index?definitionId=" ++ uri_quote (toString definition.id)

/-- _open_build: compose the view URL and hand it to the browser
launcher (which may raise). -/
def _open_build (env : Env) (build : BuildRecord) (team_instance : String) :
    Except Err Unit :=
  env.open_new (buildWebUrl team_instance build)

/-- _open_definition: compose the view URL and hand it to the browser
launcher (which may raise). -/
def _open_definition (env : Env) (definition : BuildDefinitionReference)
    (team_instance : String) : Except Err Unit :=
  env.open_new (definitionWebUrl team_instance definition)

/-- The request object build_queue constructs: Build(definition=
DefinitionReference(id=definition_id)), then source_branch assigned to
resolve_git_ref_heads(source_branch) when one was given. -/
def mkQueueRequest (env : Env) (definition_id : Int) (source_branch : Option String) :
    Build :=
  match source_branch with
  | some sb =>
    { definition := some { id := definition_id },
      source_branch := some (env.resolve_git_ref_heads sb) }
  | none => { definition := some { id := definition_id } }

/-- Tail of build_queue once the definition id is known: submit the
request, then optionally open the browser, returning the queued build. -/
def build_queue_submit (env : Env) (definition_id : Int) (source_branch : Option String)
    (open_browser : Bool) (team_instance project : String) (calls : List RemoteCall) :
    Except Err BuildRecord × List RemoteCall :=
  match env.queue_build (mkQueueRequest env definition_id source_branch) project with
  | Except.error e =>
    (Except.error e, calls ++
      [RemoteCall.queueBuild (mkQueueRequest env definition_id source_branch) project])
  | Except.ok queued_build =>
    if open_browser then
      match _open_build env queued_build team_instance with
      | Except.error e =>
        (Except.error e, calls ++
          [RemoteCall.queueBuild (mkQueueRequest env definition_id source_branch) project])
      | Except.ok _ =>
        (Except.ok queued_build, calls ++
          [RemoteCall.queueBuild (mkQueueRequest env definition_id source_branch) project])
    else
      (Except.ok queued_build, calls ++
        [RemoteCall.queueBuild (mkQueueRequest env definition_id source_branch) project])

/-- Body of build_queue inside the try block. -/
def build_queue_inner (env : Env) (definition_id : Option Int) (name : Option String)
    (source_branch : Option String) (open_browser : Bool)
    (team_instance project detect : Option String) :
    Except Err BuildRecord × List RemoteCall :=
  match env.resolve_instance_and_project detect team_instance project with
  | Except.error e => (Except.error e, [])
  | Except.ok (ti, proj) =>
    match definition_id, name with
    | none, none => (Except.error (Err.valueError idOrNameMsg), [])
    | none, some n =>
      match get_definition_id_from_name env n proj with
      | (Except.error e, calls) => (Except.error e, calls)
      | (Except.ok did, calls) =>
        build_queue_submit env did source_branch open_browser ti proj calls
    | some did, _ => build_queue_submit env did source_branch open_browser ti proj []

/-- Body of build_show inside the try block. -/
def build_show_inner (env : Env) (build_id : Int) (open_browser : Bool)
    (team_instance project detect : Option String) :
    Except Err BuildRecord × List RemoteCall :=
  match env.resolve_instance_and_project detect team_instance project with
  | Except.error e => (Except.error e, [])
  | Except.ok (ti, proj) =>
    match env.get_build build_id proj with
    | Except.error e => (Except.error e, [RemoteCall.getBuild build_id proj])
    | Except.ok build =>
      if open_browser then
        match _open_build env build ti with
        | Except.error e => (Except.error e, [RemoteCall.getBuild build_id proj])
        | Except.ok _ => (Except.ok build, [RemoteCall.getBuild build_id proj])
      else (Except.ok build, [RemoteCall.getBuild build_id proj])

/-- Tail of build_definition_list: the get_definitions query, with
query_order fixed to DefinitionNameAscending. -/
def build_definition_list_query (env : Env) (name : Option String) (top : Option Int)
    (project : String) (resolved_repository repository_type : Option String)
    (calls : List RemoteCall) :
    Except Err (List BuildDefinitionReference) × List RemoteCall :=
  match env.get_definitions project name resolved_repository repository_type top
      (some "DefinitionNameAscending") with
  | Except.error e =>
    (Except.error e, calls ++ [RemoteCall.getDefinitions project name
      resolved_repository repository_type top (some "DefinitionNameAscending")])
  | Except.ok definition_references =>
    (Except.ok definition_references, calls ++ [RemoteCall.getDefinitions project name
      resolved_repository repository_type top (some "DefinitionNameAscending")])

/-- Body of build_definition_list inside the try block.  Note the source
tests the original repository argument, not the repo returned by the
context resolver. -/
def build_definition_list_inner (env : Env) (name : Option String) (top : Option Int)
    (team_instance project : Option String) (repository : Option String)
    (detect : Option String) :
    Except Err (List BuildDefinitionReference) × List RemoteCall :=
  match env.resolve_instance_project_and_repo detect team_instance project repository with
  | Except.error e => (Except.error e, [])
  | Except.ok (_ti, proj, _repo) =>
    match repository with
    | some repo =>
      match _resolve_repository_as_id env repo proj with
      | (Except.error e, calls) => (Except.error e, calls)
      | (Except.ok none, calls) =>
        (Except.error (Err.valueError (repoNotFoundMsg repo proj)), calls)
      | (Except.ok (some resolved_repository), calls) =>
        build_definition_list_query env name top proj (some resolved_repository)
          (some "TfsGit") calls
    | none => build_definition_list_query env name top proj none none []

/-- Tail of build_definition_show once the definition id is known: fetch
the definition, then optionally open the browser. -/
def build_definition_show_fetch (env : Env) (definition_id : Int) (open_browser : Bool)
    (team_instance project : String) (calls : List RemoteCall) :
    Except Err BuildDefinitionReference × List RemoteCall :=
  match env.get_definition definition_id project with
  | Except.error e =>
    (Except.error e, calls ++ [RemoteCall.getDefinition definition_id project])
  | Except.ok build_definition =>
    if open_browser then
      match _open_definition env build_definition team_instance with
      | Except.error e =>
        (Except.error e, calls ++ [RemoteCall.getDefinition definition_id project])
      | Except.ok _ =>
        (Except.ok build_definition,
          calls ++ [RemoteCall.getDefinition definition_id project])
    else
      (Except.ok build_definition,
        calls ++ [RemoteCall.getDefinition definition_id project])

/-- Body of build_definition_show inside the try block. -/
def build_definition_show_inner (env : Env) (definition_id : Option Int)
    (name : Option String) (open_browser : Bool)
    (team_instance project detect : Option String) :
    Except Err BuildDefinitionReference × List RemoteCall :=
  match env.resolve_instance_and_project detect team_instance project with
  | Except.error e => (Except.error e, [])
  | Except.ok (ti, proj) =>
    match definition_id with
    | some did => build_definition_show_fetch env did open_browser ti proj []
    | none =>
      match name with
      | some n =>
        match get_definition_id_from_name env n proj with
        | (Except.error e, calls) => (Except.error e, calls)
        | (Except.ok did, calls) =>
          build_definition_show_fetch env did open_browser ti proj calls
      | none => (Except.error (Err.valueError idOrNameMsg), [])

/-- Outcome of a wrapped command: the value returned to the caller (none
when an exception was handled), the exception passed to
handle_command_exception if any, and the remote calls issued. -/
structure CmdResult (α : Type) where
  value : Option α
  handled : Option Err
  calls : List RemoteCall
deriving DecidableEq

/-- The try/except wrapper of every public operation: an exception is
passed to handle_command_exception and, this handler returning, the
operation returns None. -/
def wrap {α : Type} (r : Except Err α × List RemoteCall) : CmdResult α :=
  match r.1 with
  | Except.ok v => { value := some v, handled := none, calls := r.2 }
  | Except.error e => { value := none, handled := some e, calls := r.2 }

/-- Public operation build_queue. -/
def build_queue (env : Env) (definition_id : Option Int) (name : Option String)
    (source_branch : Option String) (open_browser : Bool)
    (team_instance project detect : Option String) : CmdResult BuildRecord :=
  wrap (build_queue_inner env definition_id name source_branch open_browser
    team_instance project detect)

/-- Public operation build_show. -/
def build_show (env : Env) (build_id : Int) (open_browser : Bool)
    (team_instance project detect : Option String) : CmdResult BuildRecord :=
  wrap (build_show_inner env build_id open_browser team_instance project detect)

/-- Public operation build_definition_list. -/
def build_definition_list (env : Env) (name : Option String) (top : Option Int)
    (team_instance project : Option String) (repository : Option String)
    (detect : Option String) : CmdResult (List BuildDefinitionReference) :=
  wrap (build_definition_list_inner env name top team_instance project repository detect)

/-- Public operation build_definition_show. -/
def build_definition_show (env : Env) (definition_id : Option Int)
    (name : Option String) (open_browser : Bool)
    (team_instance project detect : Option String) : CmdResult BuildDefinitionReference :=
  wrap (build_definition_show_inner env definition_id name open_browser
    team_instance project detect)

/-- A sample definition reference used to instantiate theorems. -/
def defnNightly : BuildDefinitionReference :=
  { id := 11, name := "Nightly", project := { name := "Demo" } }

/-- A second sample definition reference with the same name. -/
def defnNightly2 : BuildDefinitionReference :=
  { id := 12, name := "Nightly", project := { name := "DemoHuman" } }

/-- A sample repository record. -/
def repoCli : GitRepository := { id := "repo-guid-1", name := "CLI" }

/-- Another sample repository record. -/
def repoTools : GitRepository := { id := "repo-guid-2", name := "Tools" }

/-- A concrete environment where every collaborator succeeds and the
definition listing is empty. -/
def envBase : Env :=
  { resolve_instance_and_project := fun _ _ _ =>
      Except.ok ("https://x.visualstudio.com", "Demo"),
    resolve_instance_project_and_repo := fun _ _ _ _ =>
      Except.ok ("https://x.visualstudio.com", "Demo", none),
    get_definitions := fun _ _ _ _ _ _ => Except.ok [],
    queue_build := fun _ _ => Except.ok { id := 42, project := { name := "Demo" } },
    get_build := fun bid _ => Except.ok { id := bid, project := { name := "Demo" } },
    get_definition := fun did _ =>
      Except.ok { id := did, name := "Nightly", project := { name := "Demo" } },
    get_repositories := fun _ => Except.ok [],
    resolve_git_ref_heads := fun s => "refs/heads/" ++ s,
    is_uuid := fun _ => false,
    open_new := fun _ => Except.ok () }

/-- envBase with exactly one matching definition. -/
def envOne : Env :=
  { envBase with get_definitions := fun _ _ _ _ _ _ => Except.ok [defnNightly] }

/-- envBase with two matching definitions. -/
def envTwo : Env :=
  { envBase with
    get_definitions := fun _ _ _ _ _ _ => Except.ok [defnNightly, defnNightly2] }

/-- envBase with two repositories and a uuid check recognizing one fixed
token. -/
def envRepo : Env :=
  { envBase with
    get_repositories := fun _ => Except.ok [repoTools, repoCli],
    is_uuid := fun s => s == "f1f1f1f1-aaaa-bbbb-cccc-121212121212" }

/-- An environment whose context resolvers raise. -/
def envFail : Env :=
  { envBase with
    resolve_instance_and_project := fun _ _ _ => Except.error (Err.external "boom"),
    resolve_instance_project_and_repo := fun _ _ _ _ =>
      Except.error (Err.external "boom") }

/-- envBase with a browser launcher that raises. -/
def envBrowserFail : Env :=
  { envBase with open_new := fun _ => Except.error (Err.external "browser failed") }

lemma wrap_calls {α : Type} (r : Except Err α × List RemoteCall) :
    (wrap r).calls = r.2 := by
  unfold wrap
  cases r.1 <;> rfl

lemma gdifn_snd (env : Env) (n proj : String) :
    (get_definition_id_from_name env n proj).2 =
      [RemoteCall.getDefinitions proj (some n) none none none none] := by
  unfold get_definition_id_from_name
  cases env.get_definitions proj (some n) none none none none with
  | error e => rfl
  | ok refs => cases refs with
    | nil => rfl
    | cons a t => cases t <;> rfl

lemma build_queue_submit_snd (env : Env) (did : Int) (sb : Option String) (ob : Bool)
    (ti proj : String) (calls : List RemoteCall) :
    (build_queue_submit env did sb ob ti proj calls).2 =
      calls ++ [RemoteCall.queueBuild (mkQueueRequest env did sb) proj] := by
  unfold build_queue_submit
  split
  · rfl
  · split
    · split <;> rfl
    · rfl

lemma build_definition_list_query_snd (env : Env) (nm : Option String) (top : Option Int)
    (proj : String) (rid rty : Option String) (calls : List RemoteCall) :
    (build_definition_list_query env nm top proj rid rty calls).2 = calls ++
      [RemoteCall.getDefinitions proj nm rid rty top (some "DefinitionNameAscending")] := by
  unfold build_definition_list_query
  cases env.get_definitions proj nm rid rty top (some "DefinitionNameAscending") <;> rfl

lemma build_definition_show_fetch_snd (env : Env) (did : Int) (ob : Bool)
    (ti proj : String) (calls : List RemoteCall) :
    (build_definition_show_fetch env did ob ti proj calls).2 =
      calls ++ [RemoteCall.getDefinition did proj] := by
  unfold build_definition_show_fetch
  split
  · rfl
  · split
    · split <;> rfl
    · rfl

lemma head_dropWhile_false {p : Char → Bool} :
    ∀ (l : List Char) (c : Char), (l.dropWhile p).head? = some c → p c = false := by
  intro l
  induction l with
  | nil => intro c h; simp [List.dropWhile] at h
  | cons a rest ih =>
    intro c h
    by_cases hp : p a
    · rw [List.dropWhile_cons_of_pos hp] at h
      exact ih c h
    · rw [List.dropWhile_cons_of_neg hp] at h
      simp at h
      rw [← h]
      simpa using hp

/-- Every queueBuild call issued by the body of build_queue submits the
request object mkQueueRequest builds, with the resolved definition id. -/
lemma mem_queueBuild_build_queue_inner (env : Env) (d : Option Int) (n : Option String)
    (sb : Option String) (ob : Bool) (ti pr de : Option String) (b : Build) (p : String)
    (hmem : RemoteCall.queueBuild b p ∈ (build_queue_inner env d n sb ob ti pr de).2) :
    ∃ did, b = mkQueueRequest env did sb ∧ ∀ d0, d = some d0 → did = d0 := by
  unfold build_queue_inner at hmem
  cases hres : env.resolve_instance_and_project de ti pr with
  | error e =>
    rw [hres] at hmem
    simp at hmem
  | ok tp =>
    obtain ⟨tii, proj⟩ := tp
    rw [hres] at hmem
    dsimp only at hmem
    cases d with
    | some did =>
      simp only [build_queue_submit_snd, List.nil_append, List.mem_singleton] at hmem
      refine ⟨did, ?_, ?_⟩
      · exact (RemoteCall.queueBuild.injEq _ _ _ _).mp hmem |>.1
      · intro d0 hd0
        exact (Option.some.injEq _ _).mp hd0 |>.symm ▸ rfl
    | none =>
      cases n with
      | none => simp at hmem
      | some nm =>
        dsimp only at hmem
        rcases hg : get_definition_id_from_name env nm proj with ⟨res, calls0⟩
        rw [hg] at hmem
        have hc0 : calls0 = [RemoteCall.getDefinitions proj (some nm) none none none none] := by
          have h2 := gdifn_snd env nm proj
          rw [hg] at h2
          exact h2
        cases res with
        | error e =>
          simp only [hc0] at hmem
          simp at hmem
        | ok did =>
          simp only [build_queue_submit_snd, hc0, List.mem_append,
            List.mem_singleton] at hmem
          rcases hmem with hmem | hmem
          · simp at hmem
          · refine ⟨did, (RemoteCall.queueBuild.injEq _ _ _ _).mp hmem |>.1, ?_⟩
            intro d0 hd0
            cases hd0

/-- C1: when both definition_id and name are absent, build_queue and
build_definition_show fail with the invalid-argument ValueError and issue
no remote service call at all. -/
theorem id_or_name_required :
    (∀ (env : Env) (sb : Option String) (ob : Bool) (ti pr de : Option String)
      (tii proj : String),
      env.resolve_instance_and_project de ti pr = Except.ok (tii, proj) →
      build_queue env none none sb ob ti pr de =
        { value := none, handled := some (Err.valueError idOrNameMsg), calls := [] }) ∧
    (∀ (env : Env) (ob : Bool) (ti pr de : Option String) (tii proj : String),
      env.resolve_instance_and_project de ti pr = Except.ok (tii, proj) →
      build_definition_show env none none ob ti pr de =
        { value := none, handled := some (Err.valueError idOrNameMsg), calls := [] }) := by
  constructor
  · intro env sb ob ti pr de tii proj h
    simp [build_queue, build_queue_inner, wrap, h]
  · intro env ob ti pr de tii proj h
    simp [build_definition_show, build_definition_show_inner, wrap, h]

/-- Witness for C1 at a concrete environment. -/
theorem id_or_name_required_witness :
    envBase.resolve_instance_and_project none none none =
      Except.ok ("https://x.visualstudio.com", "Demo") ∧
    build_queue envBase none none none false none none none =
      { value := none, handled := some (Err.valueError idOrNameMsg), calls := [] } ∧
    build_definition_show envBase none none false none none none =
      { value := none, handled := some (Err.valueError idOrNameMsg), calls := [] } :=
  ⟨rfl,
    id_or_name_required.1 envBase none false none none none
      "https://x.visualstudio.com" "Demo" rfl,
    id_or_name_required.2 envBase false none none none
      "https://x.visualstudio.com" "Demo" rfl⟩

/-- C2: name resolution returns the id of a unique match, and on zero
matches raises a not-found ValueError whose message contains both the
name and the project. -/
theorem definition_name_resolution_single_and_none :
    (∀ (env : Env) (name project : String) (r : BuildDefinitionReference),
      env.get_definitions project (some name) none none none none = Except.ok [r] →
      get_definition_id_from_name env name project =
        (Except.ok r.id,
         [RemoteCall.getDefinitions project (some name) none none none none])) ∧
    (∀ (env : Env) (name project : String),
      env.get_definitions project (some name) none none none none = Except.ok [] →
      ∃ a b c, get_definition_id_from_name env name project =
        (Except.error (Err.valueError (a ++ name ++ b ++ project ++ c)),
         [RemoteCall.getDefinitions project (some name) none none none none])) := by
  constructor
  · intro env name project r h
    simp [get_definition_id_from_name, h]
  · intro env name project h
    refine ⟨"There were no build definitions matching name \"", "\" in project \"",
      "\".", ?_⟩
    simp [get_definition_id_from_name, h, noMatchMsg]

/-- Witness for C2 at concrete environments. -/
theorem definition_name_resolution_single_and_none_witness :
    (envOne.get_definitions "Demo" (some "Nightly") none none none none =
        Except.ok [defnNightly] ∧
      get_definition_id_from_name envOne "Nightly" "Demo" =
        (Except.ok defnNightly.id,
         [RemoteCall.getDefinitions "Demo" (some "Nightly") none none none none])) ∧
    (envBase.get_definitions "Demo" (some "Nightly") none none none none =
        Except.ok [] ∧
      ∃ a b c, get_definition_id_from_name envBase "Nightly" "Demo" =
        (Except.error (Err.valueError (a ++ "Nightly" ++ b ++ "Demo" ++ c)),
         [RemoteCall.getDefinitions "Demo" (some "Nightly") none none none none])) :=
  ⟨⟨rfl, definition_name_resolution_single_and_none.1 envOne "Nightly" "Demo"
      defnNightly rfl⟩,
   ⟨rfl, definition_name_resolution_single_and_none.2 envBase "Nightly" "Demo" rfl⟩⟩

/-- C3: on two or more matches, name resolution always raises the
ambiguous-reference ValueError (it never returns an id); the message
carries the first match's project name when the project token is
uuid-shaped and the original token otherwise. -/
theorem definition_name_resolution_ambiguous :
    ∀ (env : Env) (name project : String) (r1 r2 : BuildDefinitionReference)
      (rest : List BuildDefinitionReference),
      env.get_definitions project (some name) none none none none =
        Except.ok (r1 :: r2 :: rest) →
      get_definition_id_from_name env name project =
        (Except.error (Err.valueError (multiMatchMsg name
            (if env.is_uuid project then r1.project.name else project))),
         [RemoteCall.getDefinitions project (some name) none none none none]) := by
  intro env name project r1 r2 rest h
  simp only [get_definition_id_from_name, h]

/-- Witness for C3 at a concrete environment with two matches. -/
theorem definition_name_resolution_ambiguous_witness :
    envTwo.get_definitions "Demo" (some "Nightly") none none none none =
      Except.ok [defnNightly, defnNightly2] ∧
    get_definition_id_from_name envTwo "Nightly" "Demo" =
      (Except.error (Err.valueError (multiMatchMsg "Nightly"
          (if envTwo.is_uuid "Demo" then defnNightly.project.name else "Demo"))),
       [RemoteCall.getDefinitions "Demo" (some "Nightly") none none none none]) :=
  ⟨rfl, definition_name_resolution_ambiguous envTwo "Nightly" "Demo"
    defnNightly defnNightly2 [] rfl⟩

/-- C6: every request build_queue submits to queue_build when a
source_branch was given carries the git-ref-normalized branch, not the
raw input. -/
theorem queue_build_normalizes_source_branch :
    ∀ (env : Env) (d : Option Int) (n : Option String) (sb : String) (ob : Bool)
      (ti pr de : Option String) (b : Build) (p : String),
      RemoteCall.queueBuild b p ∈
        (build_queue env d n (some sb) ob ti pr de).calls →
      b.source_branch = some (env.resolve_git_ref_heads sb) := by
  intro env d n sb ob ti pr de b p hmem
  rw [build_queue, wrap_calls] at hmem
  obtain ⟨did, hb, -⟩ := mem_queueBuild_build_queue_inner env d n (some sb) ob ti pr de
    b p hmem
  rw [hb]
  rfl

/-- Witness for C6 at a concrete environment. -/
theorem queue_build_normalizes_source_branch_witness :
    RemoteCall.queueBuild
        { definition := some { id := 5 }, source_branch := some "refs/heads/main" }
        "Demo" ∈
      (build_queue envBase (some 5) none (some "main") false none none none).calls ∧
    ({ definition := some { id := 5 },
        source_branch := some "refs/heads/main" } : Build).source_branch =
      some (envBase.resolve_git_ref_heads "main") :=
  ⟨by decide,
    queue_build_normalizes_source_branch envBase (some 5) none "main" false
      none none none _ "Demo" (by decide)⟩

/-- C10: every request build_queue submits when source_branch is absent
has only the definition reference set: source_branch stays at its
default none, and when a definition_id was passed the reference carries
exactly that id. -/
theorem queue_build_leaves_source_branch_default :
    ∀ (env : Env) (d : Option Int) (n : Option String) (ob : Bool)
      (ti pr de : Option String) (b : Build) (p : String),
      RemoteCall.queueBuild b p ∈ (build_queue env d n none ob ti pr de).calls →
      ∃ did, b = { definition := some { id := did }, source_branch := none } ∧
        ∀ d0, d = some d0 → did = d0 := by
  intro env d n ob ti pr de b p hmem
  rw [build_queue, wrap_calls] at hmem
  obtain ⟨did, hb, hid⟩ := mem_queueBuild_build_queue_inner env d n none ob ti pr de
    b p hmem
  exact ⟨did, hb, hid⟩

/-- Witness for C10 at a concrete environment. -/
theorem queue_build_leaves_source_branch_default_witness :
    RemoteCall.queueBuild
        { definition := some { id := 5 }, source_branch := none } "Demo" ∈
      (build_queue envBase (some 5) none none false none none none).calls ∧
    ∃ did,
      ({ definition := some { id := 5 }, source_branch := none } : Build) =
        { definition := some { id := did }, source_branch := none } ∧
      ∀ d0, (some 5 : Option Int) = some d0 → did = d0 :=
  ⟨by decide,
    queue_build_leaves_source_branch_default envBase (some 5) none false
      none none none _ "Demo" (by decide)⟩

/-- C4: repository resolution returns a uuid-shaped token unchanged with
no listing call; otherwise it lists the repositories and returns the
first case-insensitive name match's id, or none when nothing matches, in
which case build_definition_list raises the not-found ValueError naming
the repository and the project. -/
theorem repository_resolution_spec :
    (∀ (env : Env) (repository project : String),
      env.is_uuid repository = true →
      _resolve_repository_as_id env repository project =
        (Except.ok (some repository), [])) ∧
    (∀ (env : Env) (repository project : String) (repos : List GitRepository),
      env.is_uuid repository = false →
      env.get_repositories project = Except.ok repos →
      _resolve_repository_as_id env repository project =
        (Except.ok (findRepositoryId repos repository),
         [RemoteCall.getRepositories project])) ∧
    (∀ (repository : String) (pre post : List GitRepository) (r : GitRepository),
      (∀ q ∈ pre, lowerStr q.name ≠ lowerStr repository) →
      lowerStr r.name = lowerStr repository →
      findRepositoryId (pre ++ r :: post) repository = some r.id) ∧
    (∀ (repository : String) (repos : List GitRepository),
      (∀ q ∈ repos, lowerStr q.name ≠ lowerStr repository) →
      findRepositoryId repos repository = none) ∧
    (∀ (env : Env) (nm : Option String) (top : Option Int) (ti pr de : Option String)
      (repository tii proj : String) (rr : Option String) (repos : List GitRepository),
      env.resolve_instance_project_and_repo de ti pr (some repository) =
        Except.ok (tii, proj, rr) →
      env.is_uuid repository = false →
      env.get_repositories proj = Except.ok repos →
      findRepositoryId repos repository = none →
      build_definition_list env nm top ti pr (some repository) de =
        { value := none,
          handled := some (Err.valueError (repoNotFoundMsg repository proj)),
          calls := [RemoteCall.getRepositories proj] }) := by
  refine ⟨?_, ?_, ?_, ?_, ?_⟩
  · intro env repository project h
    simp [_resolve_repository_as_id, h]
  · intro env repository project repos h hg
    simp [_resolve_repository_as_id, h, hg]
  · intro repository pre post r hpre hr
    induction pre with
    | nil => simp [findRepositoryId, hr]
    | cons q rest ih =>
      have hq : lowerStr q.name ≠ lowerStr repository := hpre q (by simp)
      have hrest : ∀ x ∈ rest, lowerStr x.name ≠ lowerStr repository :=
        fun x hx => hpre x (by simp [hx])
      simp only [List.cons_append, findRepositoryId]
      rw [if_neg]
      · exact ih hrest
      · simp [hq]
  · intro repository repos hall
    induction repos with
    | nil => rfl
    | cons q rest ih =>
      have hq : lowerStr q.name ≠ lowerStr repository := hall q (by simp)
      have hrest : ∀ x ∈ rest, lowerStr x.name ≠ lowerStr repository :=
        fun x hx => hall x (by simp [hx])
      simp only [findRepositoryId]
      rw [if_neg]
      · exact ih hrest
      · simp [hq]
  · intro env nm top ti pr de repository tii proj rr repos hres hu hg hfind
    have hresolve : _resolve_repository_as_id env repository proj =
        (Except.ok none, [RemoteCall.getRepositories proj]) := by
      simp [_resolve_repository_as_id, hu, hg, hfind]
    simp [build_definition_list, build_definition_list_inner, wrap, hres, hresolve]

/-- Witness for C4 at a concrete environment. -/
theorem repository_resolution_spec_witness :
    (envRepo.is_uuid "f1f1f1f1-aaaa-bbbb-cccc-121212121212" = true ∧
      _resolve_repository_as_id envRepo "f1f1f1f1-aaaa-bbbb-cccc-121212121212" "Demo" =
        (Except.ok (some "f1f1f1f1-aaaa-bbbb-cccc-121212121212"), [])) ∧
    (envRepo.is_uuid "cli" = false ∧
      envRepo.get_repositories "Demo" = Except.ok [repoTools, repoCli] ∧
      _resolve_repository_as_id envRepo "cli" "Demo" =
        (Except.ok (findRepositoryId [repoTools, repoCli] "cli"),
         [RemoteCall.getRepositories "Demo"])) ∧
    (findRepositoryId ([repoTools] ++ repoCli :: []) "cli" = some repoCli.id) ∧
    (findRepositoryId [repoTools, repoCli] "nope" = none) ∧
    (envRepo.resolve_instance_project_and_repo none none none (some "nope") =
        Except.ok ("https://x.visualstudio.com", "Demo", none) ∧
      build_definition_list envRepo none none none none (some "nope") none =
        { value := none,
          handled := some (Err.valueError (repoNotFoundMsg "nope" "Demo")),
          calls := [RemoteCall.getRepositories "Demo"] }) :=
  ⟨⟨by decide, repository_resolution_spec.1 envRepo
      "f1f1f1f1-aaaa-bbbb-cccc-121212121212" "Demo" (by decide)⟩,
   ⟨by decide, rfl, repository_resolution_spec.2.1 envRepo "cli" "Demo"
      [repoTools, repoCli] (by decide) rfl⟩,
   repository_resolution_spec.2.2.1 "cli" [repoTools] [] repoCli
     (by decide) (by decide),
   repository_resolution_spec.2.2.2.1 "nope" [repoTools, repoCli] (by decide),
   ⟨rfl, repository_resolution_spec.2.2.2.2 envRepo none none none none none
      "nope" "https://x.visualstudio.com" "Demo" none [repoTools, repoCli]
      rfl (by decide) rfl (by decide)⟩⟩

/-- C8: build_definition_list queries get_definitions with the resolved
project, the name filter, the top limit and the fixed ascending name
order; repository id and the TfsGit discriminator are passed exactly when
a repository filter was supplied, and are both none otherwise. -/
theorem definition_list_query_arguments :
    (∀ (env : Env) (nm : Option String) (top : Option Int) (ti pr de : Option String)
      (tii proj : String) (rr : Option String),
      env.resolve_instance_project_and_repo de ti pr none = Except.ok (tii, proj, rr) →
      (build_definition_list env nm top ti pr none de).calls =
        [RemoteCall.getDefinitions proj nm none none top
          (some "DefinitionNameAscending")]) ∧
    (∀ (env : Env) (nm : Option String) (top : Option Int) (ti pr de : Option String)
      (repo tii proj : String) (rr : Option String) (rid : String)
      (rcalls : List RemoteCall),
      env.resolve_instance_project_and_repo de ti pr (some repo) =
        Except.ok (tii, proj, rr) →
      _resolve_repository_as_id env repo proj = (Except.ok (some rid), rcalls) →
      (build_definition_list env nm top ti pr (some repo) de).calls =
        rcalls ++ [RemoteCall.getDefinitions proj nm (some rid) (some "TfsGit") top
          (some "DefinitionNameAscending")]) := by
  constructor
  · intro env nm top ti pr de tii proj rr hres
    rw [build_definition_list, wrap_calls]
    simp [build_definition_list_inner, hres, build_definition_list_query_snd]
  · intro env nm top ti pr de repo tii proj rr rid rcalls hres hrr
    rw [build_definition_list, wrap_calls]
    simp [build_definition_list_inner, hres, hrr, build_definition_list_query_snd]

/-- Witness for C8 at a concrete environment. -/
theorem definition_list_query_arguments_witness :
    (envRepo.resolve_instance_project_and_repo none none none none =
        Except.ok ("https://x.visualstudio.com", "Demo", none) ∧
      (build_definition_list envRepo (some "Night*") (some 3) none none none
          none).calls =
        [RemoteCall.getDefinitions "Demo" (some "Night*") none none (some 3)
          (some "DefinitionNameAscending")]) ∧
    (envRepo.resolve_instance_project_and_repo none none none (some "cli") =
        Except.ok ("https://x.visualstudio.com", "Demo", none) ∧
      _resolve_repository_as_id envRepo "cli" "Demo" =
        (Except.ok (some "repo-guid-1"), [RemoteCall.getRepositories "Demo"]) ∧
      (build_definition_list envRepo (some "Night*") (some 3) none none
          (some "cli") none).calls =
        [RemoteCall.getRepositories "Demo"] ++
          [RemoteCall.getDefinitions "Demo" (some "Night*") (some "repo-guid-1")
            (some "TfsGit") (some 3) (some "DefinitionNameAscending")]) :=
  ⟨⟨rfl, definition_list_query_arguments.1 envRepo (some "Night*") (some 3)
      none none none "https://x.visualstudio.com" "Demo" none rfl⟩,
   ⟨rfl, rfl,
    definition_list_query_arguments.2 envRepo (some "Night*") (some 3)
      none none none "cli" "https://x.visualstudio.com" "Demo" none "repo-guid-1"
      [RemoteCall.getRepositories "Demo"] rfl rfl⟩⟩

/-- C9: whenever the body of one of the four public operations raises,
the exception is passed to the shared handler and the operation returns
none to its caller. -/
theorem exceptions_funnel_to_handler :
    (∀ (env : Env) (d : Option Int) (n sb : Option String) (ob : Bool)
      (ti pr de : Option String) (e : Err),
      (build_queue_inner env d n sb ob ti pr de).1 = Except.error e →
      (build_queue env d n sb ob ti pr de).value = none ∧
      (build_queue env d n sb ob ti pr de).handled = some e) ∧
    (∀ (env : Env) (bid : Int) (ob : Bool) (ti pr de : Option String) (e : Err),
      (build_show_inner env bid ob ti pr de).1 = Except.error e →
      (build_show env bid ob ti pr de).value = none ∧
      (build_show env bid ob ti pr de).handled = some e) ∧
    (∀ (env : Env) (nm : Option String) (top : Option Int) (ti pr rp de : Option String)
      (e : Err),
      (build_definition_list_inner env nm top ti pr rp de).1 = Except.error e →
      (build_definition_list env nm top ti pr rp de).value = none ∧
      (build_definition_list env nm top ti pr rp de).handled = some e) ∧
    (∀ (env : Env) (d : Option Int) (n : Option String) (ob : Bool)
      (ti pr de : Option String) (e : Err),
      (build_definition_show_inner env d n ob ti pr de).1 = Except.error e →
      (build_definition_show env d n ob ti pr de).value = none ∧
      (build_definition_show env d n ob ti pr de).handled = some e) := by
  refine ⟨?_, ?_, ?_, ?_⟩
  · intro env d n sb ob ti pr de e h
    constructor <;> simp [build_queue, wrap, h]
  · intro env bid ob ti pr de e h
    constructor <;> simp [build_show, wrap, h]
  · intro env nm top ti pr rp de e h
    constructor <;> simp [build_definition_list, wrap, h]
  · intro env d n ob ti pr de e h
    constructor <;> simp [build_definition_show, wrap, h]

/-- Witness for C9 at an environment whose context resolvers raise. -/
theorem exceptions_funnel_to_handler_witness :
    ((build_queue_inner envFail none none none false none none none).1 =
        Except.error (Err.external "boom") ∧
      (build_queue envFail none none none false none none none).value = none ∧
      (build_queue envFail none none none false none none none).handled =
        some (Err.external "boom")) ∧
    ((build_show_inner envFail 7 false none none none).1 =
        Except.error (Err.external "boom") ∧
      (build_show envFail 7 false none none none).value = none ∧
      (build_show envFail 7 false none none none).handled =
        some (Err.external "boom")) ∧
    ((build_definition_list_inner envFail none none none none none none).1 =
        Except.error (Err.external "boom") ∧
      (build_definition_list envFail none none none none none none).value = none ∧
      (build_definition_list envFail none none none none none none).handled =
        some (Err.external "boom")) ∧
    ((build_definition_show_inner envFail none none false none none none).1 =
        Except.error (Err.external "boom") ∧
      (build_definition_show envFail none none false none none none).value = none ∧
      (build_definition_show envFail none none false none none none).handled =
        some (Err.external "boom")) :=
  ⟨⟨rfl, exceptions_funnel_to_handler.1 envFail none none none false none none none
      (Err.external "boom") rfl⟩,
   ⟨rfl, exceptions_funnel_to_handler.2.1 envFail 7 false none none none
      (Err.external "boom") rfl⟩,
   ⟨rfl, exceptions_funnel_to_handler.2.2.1 envFail none none none none none none
      (Err.external "boom") rfl⟩,
   ⟨rfl, exceptions_funnel_to_handler.2.2.2 envFail none none false none none none
      (Err.external "boom") rfl⟩⟩

/-- C5 as stated is false on the code: with a browser launcher that
raises after the service created the build, build_queue does not return
the created build record (the exception escapes to the catch-all and the
return value is none), even though the queue-build call succeeded. -/
theorem browser_failure_return_counterexample :
    (build_queue envBrowserFail (some 1) none none true none none none).value ≠
      some { id := 42, project := { name := "Demo" } } ∧
    envBrowserFail.queue_build
        { definition := some { id := 1 }, source_branch := none } "Demo" =
      Except.ok { id := 42, project := { name := "Demo" } } ∧
    (build_queue envBrowserFail (some 1) none none true none none none).calls =
      [RemoteCall.queueBuild
        { definition := some { id := 1 }, source_branch := none } "Demo"] := by
  refine ⟨?_, rfl, rfl⟩
  intro h
  cases h

/-- C5 amended: when the browser launch raises after the service created
the build, the exception is passed to the shared handler and build_queue
returns none; the queue-build call had already been issued, so the build
itself was created. -/
theorem browser_failure_funnels_to_handler :
    ∀ (env : Env) (did : Int) (n sb ti pr de : Option String) (tii proj : String)
      (qb : BuildRecord) (e : Err),
      env.resolve_instance_and_project de ti pr = Except.ok (tii, proj) →
      env.queue_build (mkQueueRequest env did sb) proj = Except.ok qb →
      env.open_new (buildWebUrl tii qb) = Except.error e →
      build_queue env (some did) n sb true ti pr de =
        { value := none, handled := some e,
          calls := [RemoteCall.queueBuild (mkQueueRequest env did sb) proj] } := by
  intro env did n sb ti pr de tii proj qb e hres hq ho
  simp [build_queue, build_queue_inner, build_queue_submit, wrap, hres, hq,
    _open_build, ho]

/-- Witness for the amended C5 at a concrete environment. -/
theorem browser_failure_funnels_to_handler_witness :
    envBrowserFail.resolve_instance_and_project none none none =
      Except.ok ("https://x.visualstudio.com", "Demo") ∧
    envBrowserFail.queue_build (mkQueueRequest envBrowserFail 1 none) "Demo" =
      Except.ok { id := 42, project := { name := "Demo" } } ∧
    envBrowserFail.open_new
        (buildWebUrl "https://x.visualstudio.com"
          { id := 42, project := { name := "Demo" } }) =
      Except.error (Err.external "browser failed") ∧
    build_queue envBrowserFail (some 1) none none true none none none =
      { value := none, handled := some (Err.external "browser failed"),
        calls := [RemoteCall.queueBuild (mkQueueRequest envBrowserFail 1 none)
          "Demo"] } :=
  ⟨rfl, rfl, rfl,
    browser_failure_funnels_to_handler envBrowserFail 1 none none none none none
      "https://x.visualstudio.com" "Demo" { id := 42, project := { name := "Demo" } }
      (Err.external "browser failed") rfl rfl rfl⟩

/-- C7: the instance URL is stripped of every trailing slash (the result
never ends in a slash), and the composed browser URLs on the spec's
concrete example are exactly the expected percent-encoded strings, for
builds (buildid) and definitions (definitionId). -/
theorem open_in_browser_url_shape :
    (∀ (s : String) (c : Char), (rstripSlash s).data.getLast? = some c → c ≠ '/') ∧
    buildWebUrl "https://x.visualstudio.com/"
        { id := 42, project := { name := "Demo Project" } } =
      "https://x.visualstudio.com/Demo%20Project/_build/index?buildid=42" ∧
    definitionWebUrl "https://x.visualstudio.com/"
        { id := 7, name := "Nightly", project := { name := "Demo Project" } } =
      "https://x.visualstudio.com/Demo%20Project/_build/index?definitionId=7" := by
  refine ⟨?_, by decide, by decide⟩
  intro s c h hc
  unfold rstripSlash at h
  rw [List.getLast?_reverse] at h
  have hfalse := head_dropWhile_false s.data.reverse c h
  rw [hc] at hfalse
  simp at hfalse

/-- Witness for C7's universally quantified part at a concrete string. -/
theorem open_in_browser_url_shape_witness :
    (rstripSlash "ab//").data.getLast? = some 'b' ∧ 'b' ≠ '/' :=
  ⟨by decide, open_in_browser_url_shape.1 "ab//" 'b' (by decide)⟩

end VstsBuild
